import Mathlib

/-!
Verification development for the scrapping_bee_mcp repository.

The repository is a thin MCP adapter over the ScrapingBee HTTP API.  The
definitions below are a shallow embedding of the decision-making code of
`src/server-http.js` (the HTTP/JSON-RPC variant the Dockerfile deploys:
`testExtractRules`, `getPageHtml`, `getScreenshot`,
`parseScrapingBeeError`, `checkIfEmpty`) and of the stdio variant
(`src/unnamed/part_001`: its `testExtractRules` validation including the
`wait` range check).  JavaScript values flowing through these functions
are JSON trees; machine-external effects (the JSON parser of the host,
the single `fetch` call, the clock) are passed in explicitly:
`JSON.parse` as a `parse` oracle, the network as a `net` oracle consumed
at most once, and `new Date().toISOString()` as a `now` string
parameter.
-/

namespace SBee

/-- JSON values, the data model of every payload this adapter handles.
Array and object spines are inlined as cons chains (`arrCons` / `objCons`)
so that every function below is plain structural recursion; the
`jarr` / `jobj` builders recover the usual list notation.  Numbers are
modelled as integers: no code path of the adapter does arithmetic on
payload numbers, it only moves them around. -/
inductive Json where
  | null : Json
  | bool : Bool → Json
  | num : Int → Json
  | str : String → Json
  | arrNil : Json
  | arrCons : Json → Json → Json
  | objNil : Json
  | objCons : String → Json → Json → Json
deriving DecidableEq, Repr

/-- The JSON array with the given elements. -/
def jarr : List Json → Json
  | [] => .arrNil
  | x :: t => .arrCons x (jarr t)

/-- The JSON object with the given fields, in insertion order. -/
def jobj : List (String × Json) → Json
  | [] => .objNil
  | kv :: t => .objCons kv.1 kv.2 (jobj t)

@[simp] theorem jarr_nil : jarr [] = Json.arrNil := rfl

@[simp] theorem jarr_cons (x : Json) (t : List Json) :
    jarr (x :: t) = Json.arrCons x (jarr t) := rfl

@[simp] theorem jobj_nil : jobj [] = Json.objNil := rfl

@[simp] theorem jobj_cons (kv : String × Json) (t : List (String × Json)) :
    jobj (kv :: t) = Json.objCons kv.1 kv.2 (jobj t) := rfl

/-- JS property lookup on an object value: the value bound to key `k`,
`none` modelling `undefined` (also for non-object values; the objects the
adapter builds never repeat a key). -/
def jfield (j : Json) (k : String) : Option Json :=
  match j with
  | .objCons k2 v t => if k2 = k then some v else jfield t k
  | _ => none

/-- List-level lookup mirroring `jfield` on `jobj`. -/
def lookupKV (kvs : List (String × Json)) (k : String) : Option Json :=
  match kvs with
  | [] => none
  | (k2, v) :: t => if k2 = k then some v else lookupKV t k

@[simp] theorem jfield_jobj (kvs : List (String × Json)) (k : String) :
    jfield (jobj kvs) k = lookupKV kvs k := by
  induction kvs with
  | nil => rfl
  | cons kv t ih => simp [jfield, lookupKV, ih]

/-- JS truthiness of a JSON value (used for `if (parsed.error)`-style
tests): `null`, `false`, `0` and `""` are falsy, every array or object is
truthy. -/
def jsTruthy : Json → Bool
  | .null => false
  | .bool b => b
  | .num n => n != 0
  | .str s => s != ""
  | .arrNil => true
  | .arrCons _ _ => true
  | .objNil => true
  | .objCons _ _ _ => true

/-- JS truthiness of an optional string argument: `undefined` and the
empty string are falsy, so `if (!url)` fires exactly when the argument is
absent or empty. -/
def truthyS : Option String → Bool
  | none => false
  | some s => s != ""

/-- Whitespace characters stripped by JS `String.prototype.trim` (the
characters the adapter's payloads can contain). -/
def isJsSpace (c : Char) : Bool :=
  c = ' ' || c = '\t' || c = '\n' || c = '\r'

/-- Model of JS `s.trim()`: strip whitespace from both ends. -/
def jsTrim (s : String) : String :=
  String.mk (((s.toList.dropWhile isJsSpace).reverse.dropWhile isJsSpace).reverse)

/-- JS `s.substring(0, n)`: the first `n` characters of `s` (or all of
`s` when it is shorter). -/
def jsSubstringTo (s : String) (n : Nat) : String :=
  String.mk (s.toList.take n)

/-- Embedding of `checkIfEmpty` (src/server-http.js lines 1059-1069).
Case by case it is the JS function: `null` (and `undefined`) is empty; a
string is empty when blank after trim; numbers and booleans are never
empty (the final `return false`); the empty array is empty
(`data.length === 0`); `typeof data === 'object'` is true for arrays as
well and `Object.values` of an array is its element list, so the zero-key
object is empty and a non-empty array or object is empty when every
element or value is recursively empty (`values.every(...)`). -/
def checkIfEmpty : Json → Bool
  | .null => true
  | .str s => jsTrim s == ""
  | .num _ => false
  | .bool _ => false
  | .arrNil => true
  | .arrCons h t => checkIfEmpty h && checkIfEmpty t
  | .objNil => true
  | .objCons _ v t => checkIfEmpty v && checkIfEmpty t

/-- `values.every(v => checkIfEmpty(v))` over an element list (vacuously
true for `[]`, matching the explicit `length === 0` branch). -/
def allEmpty (xs : List Json) : Bool :=
  xs.all checkIfEmpty

@[simp] theorem checkIfEmpty_jarr (xs : List Json) :
    checkIfEmpty (jarr xs) = allEmpty xs := by
  induction xs with
  | nil => rfl
  | cons x t ih => simp [checkIfEmpty, allEmpty, ih, List.all_cons]

/-- `values.every(v => checkIfEmpty(v))` over an object's values. -/
def allEmptyKV (kvs : List (String × Json)) : Bool :=
  kvs.all (fun kv => checkIfEmpty kv.2)

@[simp] theorem checkIfEmpty_jobj (kvs : List (String × Json)) :
    checkIfEmpty (jobj kvs) = allEmptyKV kvs := by
  induction kvs with
  | nil => rfl
  | cons kv t ih => simp [checkIfEmpty, allEmptyKV, ih, List.all_cons]

/-- A value "contains a solid leaf" when a number, a boolean, or a
non-blank string occurs somewhere in its tree.  This is the containment
notion of claim C10 ("any value containing a number, boolean, or
non-blank string anywhere"). -/
def hasSolid : Json → Bool
  | .null => false
  | .str s => jsTrim s != ""
  | .num _ => true
  | .bool _ => true
  | .arrNil => false
  | .arrCons h t => hasSolid h || hasSolid t
  | .objNil => false
  | .objCons _ v t => hasSolid v || hasSolid t

/-- A tree containing a solid leaf is never judged empty. -/
theorem hasSolid_not_empty (j : Json) :
    hasSolid j = true → checkIfEmpty j = false := by
  induction j with
  | null => simp [hasSolid]
  | bool b => simp [checkIfEmpty]
  | num n => simp [checkIfEmpty]
  | str s =>
    intro h
    simp only [hasSolid, bne_iff_ne, ne_eq] at h
    simp [checkIfEmpty, h]
  | arrNil => simp [hasSolid]
  | arrCons h t ihh iht =>
    intro hs
    simp only [hasSolid, Bool.or_eq_true] at hs
    rcases hs with hx | hx
    · simp [checkIfEmpty, ihh hx]
    · simp [checkIfEmpty, iht hx]
  | objNil => simp [hasSolid]
  | objCons k v t ihv iht =>
    intro hs
    simp only [hasSolid, Bool.or_eq_true] at hs
    rcases hs with hx | hx
    · simp [checkIfEmpty, ihv hx]
    · simp [checkIfEmpty, iht hx]

/-- `pat` is a leading segment of `s` (character lists). -/
def startsWithChars : List Char → List Char → Bool
  | [], _ => true
  | _ :: _, [] => false
  | p :: ps, c :: cs => p == c && startsWithChars ps cs

/-- `pat` occurs contiguously somewhere in `s` (character lists). -/
def containsChars (pat : List Char) : List Char → Bool
  | [] => startsWithChars pat []
  | c :: cs => startsWithChars pat (c :: cs) || containsChars pat cs

/-- `s.includes(pat)` of JavaScript strings. -/
def includesStr (s pat : String) : Bool :=
  containsChars pat.toList s.toList

/-- Arguments of the `test_extract_rules` tool (src/server-http.js schema,
lines 230-305).  `none` models an absent argument (JS `undefined`). -/
structure Args where
  api_key : Option String
  url : Option String
  extract_rules : Option String
  js_scenario : Option String
  render_js : Option Bool
  wait : Option Int
  wait_for : Option String
  wait_browser : Option String
  premium_proxy : Option Bool
  stealth_proxy : Option Bool
  country_code : Option String
  session_id : Option Int
  custom_google : Option Bool
  block_resources : Option Bool
  block_ads : Option Bool

/-- Query fragment for a string-valued optional field appended under a JS
truthiness guard (`if (args.x) queryParams.append(k, args.x)`): absent and
empty-string values produce no key. -/
def optStrQ (k : String) (v : Option String) : List (String × String) :=
  match v with
  | some s => if s != "" then [(k, s)] else []
  | none => []

/-- Query fragment for a boolean field appended under an
`args.x !== undefined` guard, serialized via `toString()`. -/
def optBoolQ (k : String) (v : Option Bool) : List (String × String) :=
  match v with
  | some b => [(k, if b then "true" else "false")]
  | none => []

/-- Query fragment for an integer field appended under an
`args.x !== undefined` guard, serialized via `toString()` (decimal form). -/
def optIntQ (k : String) (v : Option Int) : List (String × String) :=
  match v with
  | some n => [(k, toString n)]
  | none => []

/-- Upstream query construction of `testExtractRules`
(src/server-http.js lines 574-593): the three required parameters seed the
`URLSearchParams`, then each optional field is appended under its guard, in
source order.  Reached only after validation, when the three required
strings are present (the `getD ""` defaults are never used there). -/
def buildTestQuery (a : Args) : List (String × String) :=
  [("api_key", a.api_key.getD ""), ("url", a.url.getD ""),
   ("extract_rules", a.extract_rules.getD "")]
  ++ optStrQ "js_scenario" a.js_scenario
  ++ optBoolQ "render_js" a.render_js
  ++ optIntQ "wait" a.wait
  ++ optStrQ "wait_for" a.wait_for
  ++ optStrQ "wait_browser" a.wait_browser
  ++ optBoolQ "premium_proxy" a.premium_proxy
  ++ optBoolQ "stealth_proxy" a.stealth_proxy
  ++ optStrQ "country_code" a.country_code
  ++ optIntQ "session_id" a.session_id
  ++ optBoolQ "custom_google" a.custom_google
  ++ optBoolQ "block_resources" a.block_resources
  ++ optBoolQ "block_ads" a.block_ads

/-- Embedding of `getHttpStatusText` (src/server-http.js lines 145-160). -/
def getHttpStatusText (code : Nat) : String :=
  if code = 400 then "Bad Request"
  else if code = 401 then "Unauthorized"
  else if code = 402 then "Payment Required"
  else if code = 403 then "Forbidden"
  else if code = 404 then "Not Found"
  else if code = 408 then "Request Timeout"
  else if code = 429 then "Too Many Requests"
  else if code = 500 then "Internal Server Error"
  else if code = 502 then "Bad Gateway"
  else if code = 503 then "Service Unavailable"
  else if code = 504 then "Gateway Timeout"
  else "Unknown Status"

/-- `possibleCauses` assigned by the status-code switch of
`parseScrapingBeeError` (src/server-http.js lines 35-137). -/
def sbCauses (status : Nat) : List String :=
  if status = 400 then
    ["Invalid URL format or encoding", "Malformed extract_rules JSON",
     "Invalid parameter combination", "Missing required parameters"]
  else if status = 401 then
    ["Invalid or missing API key", "API key has expired",
     "API key does not have required permissions"]
  else if status = 402 then
    ["Insufficient API credits", "Account credit limit reached"]
  else if status = 403 then
    ["Access forbidden to target URL", "Target site blocking requests",
     "Geographic restrictions"]
  else if status = 408 ∨ status = 504 then
    ["Request timed out", "Target site too slow to respond",
     "Complex JavaScript taking too long"]
  else if status = 429 then
    ["Rate limit exceeded", "Too many concurrent requests"]
  else if status = 500 then
    ["ScrapingBee internal server error", "Target site caused server crash",
     "Google scraping without custom_google parameter"]
  else if status = 502 ∨ status = 503 then
    ["ScrapingBee service temporarily unavailable", "Target site is down",
     "Network connectivity issues"]
  else ["Unknown error occurred"]

/-- `suggestions` assigned by the same switch, including the
`suggestions.unshift(...)` for status 500 when the target URL contains
`"google."`. -/
def sbSuggestions (status : Nat) (url : String) : List String :=
  if status = 400 then
    ["Ensure URL is properly encoded", "Validate extract_rules JSON syntax",
     "Check parameter types match schema"]
  else if status = 401 then
    ["Verify api_key parameter is provided",
     "Check API key is valid at scrapingbee.com dashboard"]
  else if status = 402 then
    ["Check your credit balance at scrapingbee.com",
     "Purchase more credits or upgrade plan"]
  else if status = 403 then
    ["Try premium_proxy=true for better success rate",
     "Use stealth_proxy=true for heavily protected sites",
     "Try different country_code"]
  else if status = 408 ∨ status = 504 then
    ["Increase wait parameter", "Use wait_for with specific selector",
     "Try without render_js if not needed"]
  else if status = 429 then
    ["Slow down request frequency", "Wait before retrying",
     "Check account rate limits"]
  else if status = 500 then
    (if includesStr url "google." then
      ["CRITICAL: Add custom_google=true for Google domains"] else [])
    ++ ["For Google URLs, add custom_google=true",
        "Retry request after a few seconds",
        "Try with different proxy settings"]
  else if status = 502 ∨ status = 503 then
    ["Retry after a short delay", "Check ScrapingBee status page",
     "Verify target URL is accessible"]
  else ["Check ScrapingBee documentation for status code " ++ toString status]

/-- The `apiError` / `apiMessage` fields added when the upstream body
parses as JSON and exposes truthy `error` / `message` properties
(src/server-http.js lines 26-32). -/
def sbApiFields (parse : String → Except String Json) (responseText : String)
    : List (String × Json) :=
  match parse responseText with
  | .error _ => []
  | .ok p =>
    (match jfield p "error" with
     | some v => if jsTruthy v then [("apiError", v)] else []
     | none => [])
    ++ (match jfield p "message" with
     | some v => if jsTruthy v then [("apiMessage", v)] else []
     | none => [])

/-- Field list of the diagnostic object built by `parseScrapingBeeError`
(src/server-http.js lines 14-139), in JS property-insertion order: the
object-literal keys first (with `possibleCauses` / `suggestions` holding
their final switch-assigned values in their original positions), then the
conditionally added `apiError` / `apiMessage`.  `now` stands for
`new Date().toISOString()`. -/
def parseScrapingBeeErrorFields (parse : String → Except String Json)
    (now : String) (status : Nat) (responseText url : String)
    : List (String × Json) :=
  [("statusCode", .num (status : Int)),
   ("statusText", .str (getHttpStatusText status)),
   ("rawResponse",
    .str (if responseText = "" then "No response body"
          else jsSubstringTo responseText 1000)),
   ("url", .str url),
   ("timestamp", .str now),
   ("possibleCauses", jarr ((sbCauses status).map Json.str)),
   ("suggestions", jarr ((sbSuggestions status url).map Json.str))]
  ++ sbApiFields parse responseText

/-- The diagnostic object returned by `parseScrapingBeeError`. -/
def parseScrapingBeeError (parse : String → Except String Json)
    (now : String) (status : Nat) (responseText url : String) : Json :=
  jobj (parseScrapingBeeErrorFields parse now status responseText url)

/-- An MCP tool result: the JSON object serialized into the single text
content block, plus the `isError` flag (absent, i.e. `false`, on
success). -/
structure ToolResult where
  text : Json
  isError : Bool
deriving DecidableEq

/-- The three upstream response headers the adapter reads. -/
structure Headers where
  spbCost : Option String
  spbInitialStatus : Option String
  spbResolvedUrl : Option String

/-- Outcome of the single `fetch` call: either the promise rejected with
an error of the given `name` and `message` (a `TimeoutError` when the
120-second `AbortSignal.timeout` budget expired, a connection-level error
otherwise), or a response with a status, a body and headers arrived. -/
inductive FetchOutcome where
  | thrown (name msg : String)
  | resp (status : Nat) (body : String) (headers : Headers)

/-- Result of the pre-network part of a tool handler: either a terminal
reply produced without touching the network, or the single upstream call
with its query string and timeout budget in milliseconds. -/
inductive Step where
  | reply (r : ToolResult)
  | callUpstream (query : List (String × String)) (timeoutMs : Nat)

/-- Object fragment holding `k` exactly when the value is defined
(`JSON.stringify` drops object keys whose value is `undefined`). -/
def optJ (k : String) (o : Option Json) : List (String × Json) :=
  match o with
  | some v => [(k, v)]
  | none => []

/-- The `appliedParams` context object of `testExtractRules`
(src/server-http.js lines 598-607), modulo `JSON.stringify` dropping the
keys bound to `undefined`. -/
def mkAppliedParams (a : Args) : Json :=
  jobj ([("url", .str (a.url.getD "")),
         ("hasExtractRules", .bool true),
         ("hasJsScenario", .bool (truthyS a.js_scenario))]
    ++ optJ "renderJs" (a.render_js.map Json.bool)
    ++ optJ "wait" (a.wait.map Json.num)
    ++ optJ "waitFor" (a.wait_for.map Json.str)
    ++ optJ "premiumProxy" (a.premium_proxy.map Json.bool)
    ++ optJ "stealthProxy" (a.stealth_proxy.map Json.bool))

/-- Object fragment for a ScrapingBee header copied into the diagnostic
under a truthiness guard (`if (spbCost) ...`; `headers.get` yields `null`
for an absent header). -/
def optHeaderJ (k : String) (o : Option String) : List (String × Json) :=
  match o with
  | some s => if s != "" then [(k, .str s)] else []
  | none => []

/-- The instructional message of the empty-extraction failure
(src/server-http.js line 714). -/
def emptyExtractionMessage : String :=
  "FAILED: Extraction returned empty results. The CSS selectors do NOT match any elements on the page. You MUST NOT return these rules as working. Try: 1) Verify selectors exist in the HTML, 2) Enable render_js=true for JavaScript-heavy pages, 3) Add wait or wait_for for dynamically loaded content, 4) Use premium_proxy=true for protected sites."

/-- Documentation link embedded in several payloads. -/
def helpUrlStr : String := "https://www.scrapingbee.com/documentation/"

/-- Troubleshooting link embedded in several payloads. -/
def troubleshootingUrlStr : String :=
  "https://help.scrapingbee.com/en/article/what-to-do-if-my-request-fails-1jv1rmk/"

/-- Pre-network part of `testExtractRules` (src/server-http.js
lines 506-595): the api_key presence check, the url / extract_rules
presence check, the JSON validation of `extract_rules` and (when truthy)
`js_scenario`, then the query construction and the single upstream call
with its 120000 ms timeout.  There is no `wait` range check and no
`country_code` format check in this variant. -/
def testExtractRulesValidate (parse : String → Except String Json)
    (a : Args) : Step :=
  if !truthyS a.api_key then
    .reply ⟨jobj [("success", .bool false),
                  ("error", .str "Missing required parameter: api_key"),
                  ("message", .str "You must provide your ScrapingBee API key")],
            true⟩
  else if !truthyS a.url || !truthyS a.extract_rules then
    .reply ⟨jobj [("success", .bool false),
                  ("error", .str "Missing required parameters"),
                  ("message", .str "Both url and extract_rules are required")],
            true⟩
  else
    match parse (a.extract_rules.getD "") with
    | .error e =>
      .reply ⟨jobj [("success", .bool false),
                    ("error", .str ("Invalid extract_rules JSON: " ++ e)),
                    ("message", .str "The extract_rules parameter must be a valid JSON string")],
              true⟩
    | .ok _ =>
      if truthyS a.js_scenario then
        match parse (a.js_scenario.getD "") with
        | .error e =>
          .reply ⟨jobj [("success", .bool false),
                        ("error", .str ("Invalid js_scenario JSON: " ++ e)),
                        ("message", .str "The js_scenario parameter must be a valid JSON string")],
                  true⟩
        | .ok _ => .callUpstream (buildTestQuery a) 120000
      else .callUpstream (buildTestQuery a) 120000

/-- Post-network part of `testExtractRules` (src/server-http.js
lines 619-736): classification of a rejected fetch (TIMEOUT when the
error name is `TimeoutError`, NETWORK otherwise), the non-2xx diagnostic
path, and the 2xx path with the body parse fallback and the
empty-extraction rule.  `rulesObj` re-derives the `extractRulesObj`
already parsed during validation. -/
def testExtractRulesRespond (parse : String → Except String Json)
    (now : String) (a : Args) (o : FetchOutcome) : ToolResult :=
  let url := a.url.getD ""
  let rulesObj := match a.extract_rules with
    | some s => (match parse s with | .ok j => j | .error _ => .null)
    | none => .null
  match o with
  | .thrown name msg =>
    let category := if name = "TimeoutError" then "TIMEOUT" else "NETWORK"
    let suggestions : List String :=
      if name = "TimeoutError" then
        ["The request took longer than 2 minutes",
         "Try with a shorter wait time",
         "Consider simpler extract_rules",
         "Check if target site is responsive"]
      else
        ["Check your internet connection",
         "Verify ScrapingBee API is accessible",
         "Check if there are firewall restrictions"]
    ⟨jobj [("success", .bool false),
           ("error", .str ("Network error: " ++ msg)),
           ("errorCategory", .str category),
           ("errorType", .str name),
           ("url", .str url),
           ("rules_attempted", rulesObj),
           ("appliedParams", mkAppliedParams a),
           ("suggestions", jarr (suggestions.map Json.str)),
           ("timestamp", .str now),
           ("helpUrl", .str helpUrlStr)],
     true⟩
  | .resp status body hdrs =>
    if 200 ≤ status ∧ status < 300 then
      let data := match parse body with | .ok j => j | .error _ => .str body
      if checkIfEmpty data then
        ⟨jobj [("success", .bool false),
               ("error", .str "EXTRACTION_EMPTY"),
               ("data", data),
               ("message", .str emptyExtractionMessage),
               ("url", .str url),
               ("rules_attempted", rulesObj),
               ("isEmpty", .bool true)],
         true⟩
      else
        ⟨jobj [("success", .bool true),
               ("data", data),
               ("message", .str "Data extracted successfully"),
               ("url", .str url),
               ("rules_applied", rulesObj),
               ("isEmpty", .bool false)],
         false⟩
    else
      let diag : Json :=
        jobj (parseScrapingBeeErrorFields parse now status body url
          ++ optHeaderJ "creditsCost" hdrs.spbCost
          ++ optHeaderJ "targetSiteStatusCode" hdrs.spbInitialStatus
          ++ optHeaderJ "resolvedUrl" hdrs.spbResolvedUrl)
      ⟨jobj [("success", .bool false),
             ("error", .str ("ScrapingBee API error (HTTP " ++ toString status
                             ++ " " ++ getHttpStatusText status ++ ")")),
             ("errorCategory", .str "API_ERROR"),
             ("scrapingBeeError", diag),
             ("url", .str url),
             ("rules_attempted", rulesObj),
             ("appliedParams", mkAppliedParams a),
             ("helpUrl", .str helpUrlStr),
             ("troubleshootingUrl", .str troubleshootingUrlStr)],
       true⟩

/-- Whole `testExtractRules` invocation against a network oracle `net`.
The second component counts upstream attempts: the source awaits `fetch`
exactly once, so the count is 0 (validation stopped the call) or 1. -/
def runTestExtractRules (parse : String → Except String Json) (now : String)
    (a : Args) (net : List (String × String) → FetchOutcome)
    : ToolResult × Nat :=
  match testExtractRulesValidate parse a with
  | .reply r => (r, 0)
  | .callUpstream q _ => (testExtractRulesRespond parse now a (net q), 1)

/-- Arguments of the `get_page_html` tool (src/server-http.js schema,
lines 306-343). -/
structure HArgs where
  api_key : Option String
  url : Option String
  render_js : Option Bool
  wait : Option Int
  wait_for : Option String
  premium_proxy : Option Bool
  return_page_source : Option Bool

/-- Names of the fields actually supplied, in schema order: model of
`Object.keys(args)` for the `providedParams` context field (the JS key
order is the insertion order of the request object; the adapter only
relays the list, so the order is not semantically significant). -/
def providedHKeys (a : HArgs) : List String :=
  (if a.api_key.isSome then ["api_key"] else [])
  ++ (if a.url.isSome then ["url"] else [])
  ++ (if a.render_js.isSome then ["render_js"] else [])
  ++ (if a.wait.isSome then ["wait"] else [])
  ++ (if a.wait_for.isSome then ["wait_for"] else [])
  ++ (if a.premium_proxy.isSome then ["premium_proxy"] else [])
  ++ (if a.return_page_source.isSome then ["return_page_source"] else [])

/-- Upstream query of `getPageHtml` (src/server-http.js lines 792-806). -/
def buildHtmlQuery (a : HArgs) : List (String × String) :=
  [("api_key", a.api_key.getD ""), ("url", a.url.getD "")]
  ++ optBoolQ "render_js" a.render_js
  ++ optIntQ "wait" a.wait
  ++ optStrQ "wait_for" a.wait_for
  ++ optBoolQ "premium_proxy" a.premium_proxy
  ++ optBoolQ "return_page_source" a.return_page_source

/-- The shared missing-parameter payload of `getPageHtml` and
`getScreenshot` (src/server-http.js lines 767-789 and 913-935). -/
def missingParamsPayload (missing provided : List String) (now : String)
    : Json :=
  jobj [("success", .bool false),
        ("error", .str ("Missing required parameters: "
                        ++ String.intercalate ", " missing)),
        ("errorCategory", .str "VALIDATION"),
        ("missingParams", jarr (missing.map Json.str)),
        ("providedParams", jarr (provided.map Json.str)),
        ("suggestions", jarr
          [.str "Provide your ScrapingBee API key as the api_key parameter",
           .str "Provide the target URL as the url parameter"]),
        ("timestamp", .str now)]

/-- Pre-network part of `getPageHtml` (src/server-http.js lines 764-816):
required-field check listing every missing name, then the single upstream
call with the 120000 ms timeout. -/
def getPageHtmlValidate (now : String) (a : HArgs) : Step :=
  if !truthyS a.api_key || !truthyS a.url then
    let missing := (if !truthyS a.api_key then ["api_key"] else [])
                   ++ (if !truthyS a.url then ["url"] else [])
    .reply ⟨missingParamsPayload missing (providedHKeys a) now, true⟩
  else .callUpstream (buildHtmlQuery a) 120000

/-- Arguments of the `get_screenshot` tool (src/server-http.js schema,
lines 344-390). -/
structure SArgs where
  api_key : Option String
  url : Option String
  screenshot_full_page : Option Bool
  window_width : Option Int
  window_height : Option Int
  wait : Option Int
  wait_for : Option String
  premium_proxy : Option Bool

/-- `Object.keys(args)` model for `getScreenshot`, in schema order. -/
def providedSKeys (a : SArgs) : List String :=
  (if a.api_key.isSome then ["api_key"] else [])
  ++ (if a.url.isSome then ["url"] else [])
  ++ (if a.screenshot_full_page.isSome then ["screenshot_full_page"] else [])
  ++ (if a.window_width.isSome then ["window_width"] else [])
  ++ (if a.window_height.isSome then ["window_height"] else [])
  ++ (if a.wait.isSome then ["wait"] else [])
  ++ (if a.wait_for.isSome then ["wait_for"] else [])
  ++ (if a.premium_proxy.isSome then ["premium_proxy"] else [])

/-- Upstream query of `getScreenshot` (src/server-http.js lines 938-959):
`screenshot=true` is always sent. -/
def buildShotQuery (a : SArgs) : List (String × String) :=
  [("api_key", a.api_key.getD ""), ("url", a.url.getD ""),
   ("screenshot", "true")]
  ++ optBoolQ "screenshot_full_page" a.screenshot_full_page
  ++ optIntQ "window_width" a.window_width
  ++ optIntQ "window_height" a.window_height
  ++ optIntQ "wait" a.wait
  ++ optStrQ "wait_for" a.wait_for
  ++ optBoolQ "premium_proxy" a.premium_proxy

/-- Pre-network part of `getScreenshot` (src/server-http.js
lines 910-969). -/
def getScreenshotValidate (now : String) (a : SArgs) : Step :=
  if !truthyS a.api_key || !truthyS a.url then
    let missing := (if !truthyS a.api_key then ["api_key"] else [])
                   ++ (if !truthyS a.url then ["url"] else [])
    .reply ⟨missingParamsPayload missing (providedSKeys a) now, true⟩
  else .callUpstream (buildShotQuery a) 120000

/-- The base64 alphabet of `Buffer.toString('base64')`. -/
def b64Chars : List Char :=
  "ABCDEFGHIJKLMNOPQRSTUVWXYZabcdefghijklmnopqrstuvwxyz0123456789+/".toList

/-- Character of the base64 alphabet at a 6-bit index. -/
def b64Char (n : Nat) : Char := b64Chars.getD n 'A'

/-- Standard base64 with padding over a byte list (each byte < 256), the
encoding `Buffer.from(buffer).toString('base64')` produces. -/
def base64Encode : List Nat → String
  | [] => ""
  | [a] =>
    String.mk [b64Char (a / 4 % 64), b64Char (a % 4 * 16), '=', '=']
  | [a, b] =>
    String.mk [b64Char (a / 4 % 64), b64Char ((a % 4 * 16 + b / 16) % 64),
               b64Char (b % 16 * 4 % 64), '=']
  | a :: b :: c :: rest =>
    String.mk [b64Char (a / 4 % 64), b64Char ((a % 4 * 16 + b / 16) % 64),
               b64Char ((b % 16 * 4 + c / 64) % 64), b64Char (c % 64)]
    ++ base64Encode rest

/-- The 2xx branch of `getScreenshot` (src/server-http.js
lines 1019-1033): the body bytes are base64-encoded, the text carries the
first 1000 characters of the encoding plus a fixed truncation marker, and
`fullBase64Length` carries the length of the full encoding. -/
def getScreenshotOk (url : String) (bytes : List Nat) : ToolResult :=
  let base64 := base64Encode bytes
  ⟨jobj [("success", .bool true),
         ("message", .str "Screenshot captured successfully"),
         ("url", .str url),
         ("imageBase64", .str (jsSubstringTo base64 1000 ++ "... [TRUNCATED]")),
         ("fullBase64Length", .num (base64.length : Int))],
   false⟩

/-- The `^[a-z]{2}$` test on `country_code` (stdio variant). -/
def isTwoLowerAlpha (s : String) : Bool :=
  s.length = 2 && s.toList.all (fun c => 'a' ≤ c && c ≤ 'z')

/-- Query built by `callScrapingBeeApi` of the stdio variant
(src/unnamed/part_001 lines 491-539): the api key comes from the
process-wide `SCRAPINGBEE_API_KEY` configuration, and there are no
`block_resources` / `block_ads` parameters in this variant. -/
def callScrapingBeeApiQuery (apiKey : String) (a : Args)
    : List (String × String) :=
  [("api_key", apiKey), ("url", a.url.getD ""),
   ("extract_rules", a.extract_rules.getD "")]
  ++ optStrQ "js_scenario" a.js_scenario
  ++ optBoolQ "render_js" a.render_js
  ++ optIntQ "wait" a.wait
  ++ optStrQ "wait_for" a.wait_for
  ++ optStrQ "wait_browser" a.wait_browser
  ++ optBoolQ "premium_proxy" a.premium_proxy
  ++ optBoolQ "stealth_proxy" a.stealth_proxy
  ++ optStrQ "country_code" a.country_code
  ++ optIntQ "session_id" a.session_id
  ++ optBoolQ "custom_google" a.custom_google

/-- Pre-network part of `testExtractRules` in the stdio variant
(src/unnamed/part_001 lines 287-400 and its `callScrapingBeeApi` through
the fetch): presence check, `extract_rules` / `js_scenario` JSON checks,
then the `wait` range check (0 ≤ wait ≤ 35000) and the `country_code`
format check, finally the single upstream call with its 120000 ms budget.
`apiKey` is the environment-supplied key (assumed configured). -/
def stdioTestExtractRulesValidate (parse : String → Except String Json)
    (apiKey : String) (a : Args) : Step :=
  if !truthyS a.url || !truthyS a.extract_rules then
    .reply ⟨jobj [("success", .bool false),
                  ("error", .str "Missing required parameters"),
                  ("message", .str "Both url and extract_rules are required")],
            true⟩
  else
    match parse (a.extract_rules.getD "") with
    | .error e =>
      .reply ⟨jobj [("success", .bool false),
                    ("error", .str ("Invalid extract_rules JSON: " ++ e)),
                    ("message", .str "The extract_rules parameter must be a valid JSON string")],
              true⟩
    | .ok _ =>
      let afterScenario : Option ToolResult :=
        if truthyS a.js_scenario then
          match parse (a.js_scenario.getD "") with
          | .error e =>
            some ⟨jobj [("success", .bool false),
                        ("error", .str ("Invalid js_scenario JSON: " ++ e)),
                        ("message", .str "The js_scenario parameter must be a valid JSON string")],
                  true⟩
          | .ok _ => none
        else none
      match afterScenario with
      | some r => .reply r
      | none =>
        if a.wait.elim false (fun w => w < 0 || w > 35000) then
          .reply ⟨jobj [("success", .bool false),
                        ("error", .str "Invalid wait value"),
                        ("message", .str "Wait must be between 0 and 35000 milliseconds")],
                  true⟩
        else if truthyS a.country_code
                && !isTwoLowerAlpha (a.country_code.getD "") then
          .reply ⟨jobj [("success", .bool false),
                        ("error", .str "Invalid country_code"),
                        ("message", .str "Country code must be a 2-letter lowercase code (e.g., us, de, br)")],
                  true⟩
        else .callUpstream (callScrapingBeeApiQuery apiKey a) 120000

mutual

/-- Deterministic serialization of a `Json` value, the model of
`JSON.stringify` (modulo whitespace: the source pretty-prints with a
2-space indent, still a fixed function of the same value, so byte
equality of the transported text coincides with equality of these
serializations).  String leaves are rendered raw: no string this adapter
embeds into a payload contains a character that `JSON.stringify` would
escape, so no escaping step is modelled. -/
def ser : Json → String
  | .null => "null"
  | .bool b => if b then "true" else "false"
  | .num n => toString n
  | .str s => "\"" ++ s ++ "\""
  | .arrNil => "[]"
  | .arrCons h t => "[" ++ ser h ++ serA t
  | .objNil => "\x7b\x7d"
  | .objCons k v t => "\x7b\"" ++ k ++ "\":" ++ ser v ++ serO t

/-- Continuation of `ser` after an array element: the remaining elements
and the closing bracket. -/
def serA : Json → String
  | .arrCons h t => "," ++ ser h ++ serA t
  | _ => "]"

/-- Continuation of `ser` after an object entry: the remaining entries and
the closing brace. -/
def serO : Json → String
  | .objCons k v t => ",\"" ++ k ++ "\":" ++ ser v ++ serO t
  | _ => "\x7d"

end

/-- The serialized text block of a tool result. -/
def ToolResult.serText (r : ToolResult) : String := ser r.text

/-- The payload field `k` holds exactly the string `v`. -/
def fieldIsStr (p : Json) (k v : String) : Bool :=
  match jfield p k with
  | some (.str s) => s == v
  | _ => false

/-- The payload reports error kind `k`: either its `errorCategory` field
or its `error` field is the literal string `k` (the source marks kinds in
either position: `errorCategory: 'VALIDATION'`, `error:
'EXTRACTION_EMPTY'`). -/
def hasKind (p : Json) (k : String) : Bool :=
  fieldIsStr p "errorCategory" k || fieldIsStr p "error" k

/-- Concrete `JSON.parse` oracle used by the closed instances below: five
fixed strings with fixed parses, everything else a syntax error with the
parser's message. -/
def parse0 : String → Except String Json :=
  fun s =>
    if s = "emptybody" then
      .ok (jobj [("title", .str ""), ("items", jarr [])])
    else if s = "fullbody" then .ok (jobj [("title", .str "Example")])
    else if s = "goodrules" then .ok (jobj [("a", .str "h1")])
    else if s = "arraybody" then .ok (jarr [.str ""])
    else .error "Unexpected token u in JSON at position 0"

/-- Minimal argument set carrying the three required strings. -/
def baseArgs (k u r : String) : Args :=
  ⟨some k, some u, some r, none, none, none, none, none, none, none, none,
   none, none, none, none⟩

/-- The fully absent argument set. -/
def noArgs : Args :=
  ⟨none, none, none, none, none, none, none, none, none, none, none, none,
   none, none, none⟩

/-- The step is a terminal reply, i.e. no upstream request is issued. -/
def Step.isReply : Step → Bool
  | .reply _ => true
  | .callUpstream _ _ => false

/-- The terminal reply of a step (dummy for an upstream call). -/
def Step.result : Step → ToolResult
  | .reply r => r
  | .callUpstream _ _ => ⟨.null, false⟩

/-- The `appliedParams` context object of `getPageHtml`
(src/server-http.js lines 794-800), modulo `JSON.stringify` dropping the
keys bound to `undefined`. -/
def mkHtmlAppliedParams (a : HArgs) : Json :=
  jobj ([("url", .str (a.url.getD ""))]
    ++ optJ "renderJs" (a.render_js.map Json.bool)
    ++ optJ "wait" (a.wait.map Json.num)
    ++ optJ "waitFor" (a.wait_for.map Json.str)
    ++ optJ "premiumProxy" (a.premium_proxy.map Json.bool))

/-- Post-network part of `getPageHtml` (src/server-http.js
lines 812-906): classification of a rejected fetch (TIMEOUT when the
error name is `TimeoutError`, NETWORK otherwise, lines 817-840), the
non-2xx diagnostic path (no header augmentation in this tool), and the
2xx path with the 50000-character HTML truncation. -/
def getPageHtmlRespond (parse : String → Except String Json)
    (now : String) (a : HArgs) (o : FetchOutcome) : ToolResult :=
  let url := a.url.getD ""
  match o with
  | .thrown name msg =>
    let category := if name = "TimeoutError" then "TIMEOUT" else "NETWORK"
    let suggestions : List String :=
      if name = "TimeoutError" then
        ["Request timed out after 2 minutes", "Try reducing wait time",
         "Check if target site is responsive"]
      else
        ["Check your internet connection",
         "Verify ScrapingBee API is accessible"]
    ⟨jobj [("success", .bool false),
           ("error", .str ("Network error: " ++ msg)),
           ("errorCategory", .str category),
           ("errorType", .str name),
           ("url", .str url),
           ("appliedParams", mkHtmlAppliedParams a),
           ("suggestions", jarr (suggestions.map Json.str)),
           ("timestamp", .str now)],
     true⟩
  | .resp status body _ =>
    if 200 ≤ status ∧ status < 300 then
      let truncated := body.length > 50000
      let content :=
        if body.length > 50000 then
          jsSubstringTo body 50000 ++ "\n\n... [TRUNCATED - HTML too large]"
        else body
      ⟨jobj [("success", .bool true),
             ("html", .str content),
             ("url", .str url),
             ("truncated", .bool truncated),
             ("originalLength", .num (body.length : Int))],
       false⟩
    else
      ⟨jobj [("success", .bool false),
             ("error", .str ("ScrapingBee API error (HTTP " ++ toString status
                             ++ " " ++ getHttpStatusText status ++ ")")),
             ("errorCategory", .str "API_ERROR"),
             ("scrapingBeeError", parseScrapingBeeError parse now status body url),
             ("url", .str url),
             ("appliedParams", mkHtmlAppliedParams a),
             ("helpUrl", .str helpUrlStr)],
       true⟩

/-- Whole `getPageHtml` invocation against a network oracle; the second
component counts upstream attempts (the source awaits `fetch` once). -/
def runGetPageHtml (parse : String → Except String Json) (now : String)
    (a : HArgs) (net : List (String × String) → FetchOutcome)
    : ToolResult × Nat :=
  match getPageHtmlValidate now a with
  | .reply r => (r, 0)
  | .callUpstream q _ => (getPageHtmlRespond parse now a (net q), 1)

/-- The `appliedParams` context object of `getScreenshot`
(src/server-http.js lines 944-952), modulo `JSON.stringify` dropping the
keys bound to `undefined`. -/
def mkShotAppliedParams (a : SArgs) : Json :=
  jobj ([("url", .str (a.url.getD ""))]
    ++ optJ "screenshotFullPage" (a.screenshot_full_page.map Json.bool)
    ++ optJ "windowWidth" (a.window_width.map Json.num)
    ++ optJ "windowHeight" (a.window_height.map Json.num)
    ++ optJ "wait" (a.wait.map Json.num)
    ++ optJ "waitFor" (a.wait_for.map Json.str)
    ++ optJ "premiumProxy" (a.premium_proxy.map Json.bool))

/-- Outcome of the single `getScreenshot` fetch.  A 2xx body is consumed
as binary (`response.arrayBuffer()`, the `bytes`); a non-2xx body is
consumed as text (`response.text()`, the `errorText`) — the source reads
exactly one of the two. -/
inductive ShotOutcome where
  | thrown (name msg : String)
  | resp (status : Nat) (bytes : List Nat) (errorText : String)

/-- Post-network part of `getScreenshot` (src/server-http.js
lines 965-1055): classification of a rejected fetch (lines 970-993), the
non-2xx diagnostic path, and the 2xx path `getScreenshotOk`. -/
def getScreenshotRespond (parse : String → Except String Json)
    (now : String) (a : SArgs) (o : ShotOutcome) : ToolResult :=
  let url := a.url.getD ""
  match o with
  | .thrown name msg =>
    let category := if name = "TimeoutError" then "TIMEOUT" else "NETWORK"
    let suggestions : List String :=
      if name = "TimeoutError" then
        ["Request timed out after 2 minutes",
         "Screenshots can take longer - try smaller window size",
         "Check if target site is responsive"]
      else
        ["Check your internet connection",
         "Verify ScrapingBee API is accessible"]
    ⟨jobj [("success", .bool false),
           ("error", .str ("Network error: " ++ msg)),
           ("errorCategory", .str category),
           ("errorType", .str name),
           ("url", .str url),
           ("appliedParams", mkShotAppliedParams a),
           ("suggestions", jarr (suggestions.map Json.str)),
           ("timestamp", .str now)],
     true⟩
  | .resp status bytes errorText =>
    if 200 ≤ status ∧ status < 300 then
      getScreenshotOk url bytes
    else
      ⟨jobj [("success", .bool false),
             ("error", .str ("ScrapingBee API error (HTTP " ++ toString status
                             ++ " " ++ getHttpStatusText status ++ ")")),
             ("errorCategory", .str "API_ERROR"),
             ("scrapingBeeError",
              parseScrapingBeeError parse now status errorText url),
             ("url", .str url),
             ("appliedParams", mkShotAppliedParams a),
             ("helpUrl", .str helpUrlStr)],
       true⟩

/-- Whole `getScreenshot` invocation against a network oracle; the second
component counts upstream attempts (the source awaits `fetch` once). -/
def runGetScreenshot (parse : String → Except String Json) (now : String)
    (a : SArgs) (net : List (String × String) → ShotOutcome)
    : ToolResult × Nat :=
  match getScreenshotValidate now a with
  | .reply r => (r, 0)
  | .callUpstream q _ => (getScreenshotRespond parse now a (net q), 1)

/-- Result of the pre-network part of the legacy stdio variant
(src/unnamed/part_000): its single `fetch(apiUrl)` (line 338) passes no
`AbortSignal`, so the upstream call of this variant carries no timeout
budget at all — the constructor has no timeout field. -/
inductive LegacyStep where
  | reply (r : ToolResult)
  | callUpstream (query : List (String × String))
deriving DecidableEq

/-- Pre-network part of `testExtractRules` in the legacy stdio variant
v1.0.7 (src/unnamed/part_000 lines 135-250 and `callScrapingBeeApi`
through the fetch).  Its validation chain (presence, `extract_rules` /
`js_scenario` JSON checks, `wait` range, `country_code` format, all
messages) and its query construction are line-identical to part_001's,
embedded above as `stdioTestExtractRulesValidate`; the only difference
is the upstream call itself, which has no timeout. -/
def legacyTestExtractRulesValidate (parse : String → Except String Json)
    (apiKey : String) (a : Args) : LegacyStep :=
  match stdioTestExtractRulesValidate parse apiKey a with
  | .reply r => .reply r
  | .callUpstream q _ => .callUpstream q

/-- Post-network part of the legacy stdio variant (src/unnamed/part_000
lines 250-289 and 336-346): a rejected fetch, a non-2xx status (thrown as
`ScrapingBee API error (<status>): <body>`) and a 2xx body that fails
`response.json()` all land in the one generic catch, which reports
`error.message` with a fixed message and **no** error category of any
kind; a parsed 2xx body yields the success payload (this variant has no
empty-extraction check). -/
def legacyTestExtractRulesRespond (parse : String → Except String Json)
    (a : Args) (o : FetchOutcome) : ToolResult :=
  let url := a.url.getD ""
  let rulesObj := match a.extract_rules with
    | some s => (match parse s with | .ok j => j | .error _ => .null)
    | none => .null
  let genericFail : String → ToolResult := fun emsg =>
    ⟨jobj [("success", .bool false),
           ("error", .str emsg),
           ("message", .str "An unexpected error occurred while processing the request")],
     true⟩
  match o with
  | .thrown _ msg => genericFail msg
  | .resp status body _ =>
    if 200 ≤ status ∧ status < 300 then
      match parse body with
      | .ok j =>
        ⟨jobj [("success", .bool true),
               ("data", j),
               ("message", .str "Data extracted successfully"),
               ("url", .str url),
               ("rules_applied", rulesObj)],
         false⟩
      | .error e => genericFail e
    else
      genericFail ("ScrapingBee API error (" ++ toString status ++ "): "
                   ++ body)

/-- Whole legacy-variant invocation against a network oracle; the second
component counts upstream attempts. -/
def runLegacyTestExtractRules (parse : String → Except String Json)
    (apiKey : String) (a : Args)
    (net : List (String × String) → FetchOutcome) : ToolResult × Nat :=
  match legacyTestExtractRulesValidate parse apiKey a with
  | .reply r => (r, 0)
  | .callUpstream q => (legacyTestExtractRulesRespond parse a (net q), 1)

/-! ## Helper lemmas about substring containment -/

theorem startsWithChars_self (l : List Char) : startsWithChars l l = true := by
  induction l with
  | nil => rfl
  | cons c t ih => simp [startsWithChars, ih]

theorem containsChars_append_self (pre pat : List Char) :
    containsChars pat (pre ++ pat) = true := by
  induction pre with
  | nil =>
    cases pat with
    | nil => rfl
    | cons c cs => simp [containsChars, startsWithChars_self]
  | cons c t ih =>
    simp [containsChars, ih]

/-- A string always contains its own suffix: the parser's error text `e`
occurs verbatim inside `p ++ e`. -/
theorem includesStr_append_self (p e : String) :
    includesStr (p ++ e) e = true := by
  have h : (p ++ e).toList = p.toList ++ e.toList := by
    simp [String.toList, String.data_append]
  simpa [includesStr, h] using containsChars_append_self p.toList e.toList

/-! ## Claims -/

/-- C10: the recursive emptiness check judges every non-empty JSON array
whose elements are all themselves empty to be empty — in particular
`[""]`, `[[]]`, `[\x7b\x7d]` and `[null]` — so `test_extract_rules`
reports `EXTRACTION_EMPTY` for such a 2xx payload even though the
top-level sequence is non-empty; conversely any value containing a
number, a boolean, or a non-blank string anywhere is judged non-empty. -/
theorem c10_empty_check_on_arrays :
    (∀ xs : List Json, xs ≠ [] → allEmpty xs = true →
      checkIfEmpty (jarr xs) = true)
    ∧ (checkIfEmpty (jarr [.str ""]) = true
       ∧ checkIfEmpty (jarr [jarr []]) = true
       ∧ checkIfEmpty (jarr [jobj []]) = true
       ∧ checkIfEmpty (jarr [.null]) = true)
    ∧ (∀ (parse : String → Except String Json) (now : String) (a : Args)
         (status : Nat) (body : String) (hdrs : Headers) (xs : List Json),
        200 ≤ status → status < 300 → parse body = .ok (jarr xs) →
        xs ≠ [] → allEmpty xs = true →
        hasKind (testExtractRulesRespond parse now a
          (.resp status body hdrs)).text "EXTRACTION_EMPTY" = true)
    ∧ (∀ j : Json, hasSolid j = true → checkIfEmpty j = false) := by
  refine ⟨fun xs _ h => by simpa using h,
          ⟨by decide, by decide, by decide, by decide⟩,
          fun parse now a status body hdrs xs h2 h3 hp _ he => ?_,
          fun j h => hasSolid_not_empty j h⟩
  have hempty : checkIfEmpty (jarr xs) = true := by simpa using he
  simp [testExtractRulesRespond, h2, h3, hp, hempty, hasKind, fieldIsStr,
        jfield, lookupKV]

/-- C1: for every `test_extract_rules` invocation whose upstream call
returns HTTP 2xx, if the parsed response body is judged empty by the
recursive emptiness check then the tool result has `success=false` with
error kind `EXTRACTION_EMPTY` and a `data` field equal to the parsed
body; if the parsed body is non-empty the result has `success=true`
(with the same `data`). -/
theorem c1_empty_extraction_rule (parse : String → Except String Json)
    (now : String) (a : Args) (status : Nat) (body : String)
    (hdrs : Headers) (d : Json) (h2 : 200 ≤ status) (h3 : status < 300)
    (hp : parse body = .ok d) :
    (checkIfEmpty d = true →
      (testExtractRulesRespond parse now a (.resp status body hdrs)).isError = true
      ∧ jfield (testExtractRulesRespond parse now a
          (.resp status body hdrs)).text "success" = some (.bool false)
      ∧ hasKind (testExtractRulesRespond parse now a
          (.resp status body hdrs)).text "EXTRACTION_EMPTY" = true
      ∧ jfield (testExtractRulesRespond parse now a
          (.resp status body hdrs)).text "data" = some d)
    ∧ (checkIfEmpty d = false →
      (testExtractRulesRespond parse now a (.resp status body hdrs)).isError = false
      ∧ jfield (testExtractRulesRespond parse now a
          (.resp status body hdrs)).text "success" = some (.bool true)
      ∧ jfield (testExtractRulesRespond parse now a
          (.resp status body hdrs)).text "data" = some d) := by
  constructor <;> intro he <;>
    simp [testExtractRulesRespond, hp, he, h2, h3, hasKind, fieldIsStr,
          lookupKV, jfield]

/-- Witness for C1 at the two bodies named by the claim:
`\x7b"title": "", "items": []\x7d` yields `success=false` with kind
`EXTRACTION_EMPTY` and `data` equal to the parsed body, while
`\x7b"title": "Example"\x7d` yields `success=true`. -/
theorem c1_witness :
    hasKind (testExtractRulesRespond parse0 "T" (baseArgs "k" "u" "goodrules")
        (.resp 200 "emptybody" ⟨none, none, none⟩)).text "EXTRACTION_EMPTY" = true
    ∧ jfield (testExtractRulesRespond parse0 "T" (baseArgs "k" "u" "goodrules")
        (.resp 200 "emptybody" ⟨none, none, none⟩)).text "data"
        = some (jobj [("title", .str ""), ("items", jarr [])])
    ∧ jfield (testExtractRulesRespond parse0 "T" (baseArgs "k" "u" "goodrules")
        (.resp 200 "fullbody" ⟨none, none, none⟩)).text "success"
        = some (.bool true) :=
  ⟨((c1_empty_extraction_rule parse0 "T" (baseArgs "k" "u" "goodrules") 200
      "emptybody" ⟨none, none, none⟩ (jobj [("title", .str ""), ("items", jarr [])])
      (by decide) (by decide) rfl).1 (by decide)).2.2.1,
   ((c1_empty_extraction_rule parse0 "T" (baseArgs "k" "u" "goodrules") 200
      "emptybody" ⟨none, none, none⟩ (jobj [("title", .str ""), ("items", jarr [])])
      (by decide) (by decide) rfl).1 (by decide)).2.2.2,
   ((c1_empty_extraction_rule parse0 "T" (baseArgs "k" "u" "goodrules") 200
      "fullbody" ⟨none, none, none⟩ (jobj [("title", .str "Example")])
      (by decide) (by decide) rfl).2 (by decide)).2.1⟩

/-- C2 is false as stated: for `test_extract_rules` with every field
missing, the result is a failure reply but carries no `VALIDATION` error
kind anywhere (no `errorCategory` field at all), and its message names
only `api_key`. -/
theorem c2_counterexample :
    (testExtractRulesValidate parse0 noArgs).isReply = true
    ∧ jfield (testExtractRulesValidate parse0 noArgs).result.text "success"
        = some (.bool false)
    ∧ hasKind (testExtractRulesValidate parse0 noArgs).result.text
        "VALIDATION" = false
    ∧ jfield (testExtractRulesValidate parse0 noArgs).result.text
        "errorCategory" = none
    ∧ jfield (testExtractRulesValidate parse0 noArgs).result.text "error"
        = some (.str "Missing required parameter: api_key") := by
  decide

/-- C2 (amended): for `get_page_html` and `get_screenshot`, a missing
`api_key` or `url` yields `success=false` with error kind `VALIDATION`,
a `missingParams` list naming every missing field, and no upstream
request; for `test_extract_rules`, missing required fields also yield
`success=false` with no upstream request, but with a fixed message and
no `VALIDATION` category field. -/
theorem c2_missing_required_validation :
    (∀ (now : String) (a : HArgs),
      truthyS a.api_key = false ∨ truthyS a.url = false →
      (getPageHtmlValidate now a).isReply = true
      ∧ (getPageHtmlValidate now a).result.isError = true
      ∧ jfield (getPageHtmlValidate now a).result.text "success"
          = some (.bool false)
      ∧ hasKind (getPageHtmlValidate now a).result.text "VALIDATION" = true
      ∧ jfield (getPageHtmlValidate now a).result.text "missingParams"
          = some (jarr (((if !truthyS a.api_key then ["api_key"] else [])
              ++ (if !truthyS a.url then ["url"] else [])).map Json.str)))
    ∧ (∀ (now : String) (a : SArgs),
      truthyS a.api_key = false ∨ truthyS a.url = false →
      (getScreenshotValidate now a).isReply = true
      ∧ (getScreenshotValidate now a).result.isError = true
      ∧ jfield (getScreenshotValidate now a).result.text "success"
          = some (.bool false)
      ∧ hasKind (getScreenshotValidate now a).result.text "VALIDATION" = true
      ∧ jfield (getScreenshotValidate now a).result.text "missingParams"
          = some (jarr (((if !truthyS a.api_key then ["api_key"] else [])
              ++ (if !truthyS a.url then ["url"] else [])).map Json.str)))
    ∧ (∀ (parse : String → Except String Json) (a : Args),
      truthyS a.api_key = false ∨ truthyS a.url = false
        ∨ truthyS a.extract_rules = false →
      (testExtractRulesValidate parse a).isReply = true
      ∧ (testExtractRulesValidate parse a).result.isError = true
      ∧ jfield (testExtractRulesValidate parse a).result.text "success"
          = some (.bool false)
      ∧ jfield (testExtractRulesValidate parse a).result.text "errorCategory"
          = none) := by
  refine ⟨fun now a h => ?_, fun now a h => ?_, fun parse a h => ?_⟩
  · have hcond : (!truthyS a.api_key || !truthyS a.url) = true := by
      rcases h with h | h <;> simp [h]
    simp [getPageHtmlValidate, hcond, Step.isReply, Step.result,
          missingParamsPayload, hasKind, fieldIsStr, lookupKV, jfield]
  · have hcond : (!truthyS a.api_key || !truthyS a.url) = true := by
      rcases h with h | h <;> simp [h]
    simp [getScreenshotValidate, hcond, Step.isReply, Step.result,
          missingParamsPayload, hasKind, fieldIsStr, lookupKV, jfield]
  · by_cases hk : truthyS a.api_key
    · have hcond : (!truthyS a.url || !truthyS a.extract_rules) = true := by
        rcases h with h | h | h
        · simp [hk] at h
        · simp [h]
        · simp [h]
      simp [testExtractRulesValidate, hk, hcond, Step.isReply, Step.result,
            lookupKV, jfield]
    · simp [testExtractRulesValidate, hk, Step.isReply, Step.result,
            lookupKV, jfield]

/-- Witness for C2 (amended) at concrete inputs: `get_page_html` with both
required fields missing, `get_screenshot` with only `url` missing, and
`test_extract_rules` with `url` missing. -/
theorem c2_witness :
    hasKind (getPageHtmlValidate "T"
        ⟨none, none, none, none, none, none, none⟩).result.text "VALIDATION" = true
    ∧ jfield (getPageHtmlValidate "T"
        ⟨none, none, none, none, none, none, none⟩).result.text "missingParams"
        = some (jarr [.str "api_key", .str "url"])
    ∧ jfield (getScreenshotValidate "T"
        ⟨some "k", none, none, none, none, none, none, none⟩).result.text
        "missingParams" = some (jarr [.str "url"])
    ∧ jfield (testExtractRulesValidate parse0
        ⟨some "k", none, some "goodrules", none, none, none, none, none, none,
         none, none, none, none, none, none⟩).result.text "errorCategory"
        = none :=
  ⟨((c2_missing_required_validation.1 "T"
      ⟨none, none, none, none, none, none, none⟩ (Or.inl (by decide))).2.2.2.1),
   by
    have h := (c2_missing_required_validation.1 "T"
      ⟨none, none, none, none, none, none, none⟩ (Or.inl (by decide))).2.2.2.2
    simpa using h,
   by
    have h := (c2_missing_required_validation.2.1 "T"
      ⟨some "k", none, none, none, none, none, none, none⟩
      (Or.inr (by decide))).2.2.2.2
    simpa using h,
   ((c2_missing_required_validation.2.2 parse0
      ⟨some "k", none, some "goodrules", none, none, none, none, none, none,
       none, none, none, none, none, none⟩ (Or.inr (Or.inl (by decide)))).2.2.2)⟩

/-- C3 is false as stated: an invalid `extract_rules` JSON produces a
failure reply whose message embeds the parser's error text, but no
`PARSE_ERROR` kind marker appears anywhere in the payload. -/
theorem c3_counterexample :
    (testExtractRulesValidate parse0 (baseArgs "k" "u" "badrules")).isReply = true
    ∧ jfield (testExtractRulesValidate parse0
        (baseArgs "k" "u" "badrules")).result.text "error"
        = some (.str "Invalid extract_rules JSON: Unexpected token u in JSON at position 0")
    ∧ hasKind (testExtractRulesValidate parse0
        (baseArgs "k" "u" "badrules")).result.text "PARSE_ERROR" = false
    ∧ jfield (testExtractRulesValidate parse0
        (baseArgs "k" "u" "badrules")).result.text "errorCategory" = none := by
  decide

/-- C3 (amended): for every `test_extract_rules` invocation whose
`extract_rules` is present but fails JSON parsing, the result is
`success=false`, its `error` message embeds the parser's own error text
verbatim, and no upstream request is issued — but the payload carries no
`errorCategory` field (no `PARSE_ERROR` kind marker). -/
theorem c3_invalid_extract_rules (parse : String → Except String Json)
    (a : Args) (e : String) (hk : truthyS a.api_key = true)
    (hu : truthyS a.url = true) (hr : truthyS a.extract_rules = true)
    (hp : parse (a.extract_rules.getD "") = .error e) :
    testExtractRulesValidate parse a =
      .reply ⟨jobj [("success", .bool false),
                    ("error", .str ("Invalid extract_rules JSON: " ++ e)),
                    ("message", .str "The extract_rules parameter must be a valid JSON string")],
              true⟩
    ∧ includesStr ("Invalid extract_rules JSON: " ++ e) e = true
    ∧ jfield (testExtractRulesValidate parse a).result.text "errorCategory"
        = none
    ∧ (∀ (now : String) (net : List (String × String) → FetchOutcome),
        (runTestExtractRules parse now a net).2 = 0) := by
  have hv : testExtractRulesValidate parse a =
      .reply ⟨jobj [("success", .bool false),
                    ("error", .str ("Invalid extract_rules JSON: " ++ e)),
                    ("message", .str "The extract_rules parameter must be a valid JSON string")],
              true⟩ := by
    simp [testExtractRulesValidate, hk, hu, hr, hp]
  refine ⟨hv, includesStr_append_self _ e, ?_, fun now net => ?_⟩
  · simp [hv, Step.result, lookupKV, jfield]
  · simp [runTestExtractRules, hv]

/-- Witness for C3 (amended) at a concrete invalid `extract_rules`. -/
theorem c3_witness :
    testExtractRulesValidate parse0 (baseArgs "k" "u" "badrules") =
      .reply ⟨jobj [("success", .bool false),
                    ("error", .str "Invalid extract_rules JSON: Unexpected token u in JSON at position 0"),
                    ("message", .str "The extract_rules parameter must be a valid JSON string")],
              true⟩
    ∧ (runTestExtractRules parse0 "T" (baseArgs "k" "u" "badrules")
        (fun _ => .resp 200 "fullbody" ⟨none, none, none⟩)).2 = 0 := by
  have h := c3_invalid_extract_rules parse0 (baseArgs "k" "u" "badrules")
    "Unexpected token u in JSON at position 0" (by decide) (by decide)
    (by decide) rfl
  exact ⟨by simpa using h.1, h.2.2.2 "T" _⟩

/-- All values the constructed query binds to key `k`, in order. -/
def qvals (q : List (String × String)) (k : String) : List String :=
  (q.filter (fun p => p.1 = k)).map (fun p => p.2)

theorem qvals_append (q1 q2 : List (String × String)) (k : String) :
    qvals (q1 ++ q2) k = qvals q1 k ++ qvals q2 k := by
  simp [qvals, List.filter_append]

theorem qvals_optStrQ (k k2 : String) (v : Option String) :
    qvals (optStrQ k v) k2
      = if k = k2 then (v.filter (fun s => s != "")).toList else [] := by
  cases v with
  | none => simp [optStrQ, qvals]
  | some s =>
    by_cases hs : s = "" <;> by_cases hk : k = k2 <;>
      simp [optStrQ, qvals, hs, hk, Option.filter]

theorem qvals_optBoolQ (k k2 : String) (v : Option Bool) :
    qvals (optBoolQ k v) k2
      = if k = k2 then (v.map (fun b => if b then "true" else "false")).toList
        else [] := by
  cases v with
  | none => simp [optBoolQ, qvals]
  | some b => by_cases hk : k = k2 <;> simp [optBoolQ, qvals, hk]

theorem qvals_optIntQ (k k2 : String) (v : Option Int) :
    qvals (optIntQ k v) k2
      = if k = k2 then (v.map toString).toList else [] := by
  cases v with
  | none => simp [optIntQ, qvals]
  | some n => by_cases hk : k = k2 <;> simp [optIntQ, qvals, hk]

/-- C4 is false as stated: `wait_for` supplied as the empty string is a
present field, yet the constructed query carries no `wait_for` key at all
(the truthiness guard drops it). -/
theorem c4_counterexample :
    (⟨some "k", some "u", some "rules", none, none, none, some "", none,
      none, none, none, none, none, none, none⟩ : Args).wait_for.isSome = true
    ∧ qvals (buildTestQuery
        ⟨some "k", some "u", some "rules", none, none, none, some "", none,
         none, none, none, none, none, none, none⟩) "wait_for" = [] := by
  decide

/-- C4 (amended): the `test_extract_rules` query maps each field to
exactly one key under the fixed field-to-key mapping: the three required
strings always appear once; every present boolean or integer field
appears exactly once, serialized in literal / decimal string form; every
present *non-empty* string field appears exactly once verbatim; absent
fields — and string fields supplied as the empty string, which the
truthiness guards treat as absent — produce no key at all. -/
theorem c4_query_field_mapping (a : Args) :
    qvals (buildTestQuery a) "api_key" = [a.api_key.getD ""]
    ∧ qvals (buildTestQuery a) "url" = [a.url.getD ""]
    ∧ qvals (buildTestQuery a) "extract_rules" = [a.extract_rules.getD ""]
    ∧ qvals (buildTestQuery a) "js_scenario"
        = (a.js_scenario.filter (fun s => s != "")).toList
    ∧ qvals (buildTestQuery a) "render_js"
        = (a.render_js.map (fun b => if b then "true" else "false")).toList
    ∧ qvals (buildTestQuery a) "wait" = (a.wait.map toString).toList
    ∧ qvals (buildTestQuery a) "wait_for"
        = (a.wait_for.filter (fun s => s != "")).toList
    ∧ qvals (buildTestQuery a) "wait_browser"
        = (a.wait_browser.filter (fun s => s != "")).toList
    ∧ qvals (buildTestQuery a) "premium_proxy"
        = (a.premium_proxy.map (fun b => if b then "true" else "false")).toList
    ∧ qvals (buildTestQuery a) "stealth_proxy"
        = (a.stealth_proxy.map (fun b => if b then "true" else "false")).toList
    ∧ qvals (buildTestQuery a) "country_code"
        = (a.country_code.filter (fun s => s != "")).toList
    ∧ qvals (buildTestQuery a) "session_id"
        = (a.session_id.map toString).toList
    ∧ qvals (buildTestQuery a) "custom_google"
        = (a.custom_google.map (fun b => if b then "true" else "false")).toList
    ∧ qvals (buildTestQuery a) "block_resources"
        = (a.block_resources.map (fun b => if b then "true" else "false")).toList
    ∧ qvals (buildTestQuery a) "block_ads"
        = (a.block_ads.map (fun b => if b then "true" else "false")).toList := by
  refine ⟨?_, ?_, ?_, ?_, ?_, ?_, ?_, ?_, ?_, ?_, ?_, ?_, ?_, ?_, ?_⟩ <;>
    simp only [buildTestQuery, qvals_append, qvals_optStrQ, qvals_optBoolQ,
               qvals_optIntQ, List.append_assoc] <;>
    simp [qvals, List.filter]

/-- C5 is false as stated for the deployed HTTP variant: a
`test_extract_rules` call with `wait = 40000` (outside [0, 35000]) is not
rejected — the upstream request is issued (one fetch) and with a
non-empty 200 response the result is `success=true`. -/
theorem c5_counterexample :
    (testExtractRulesValidate parse0
      ⟨some "k", some "u", some "goodrules", none, none, some 40000, none,
       none, none, none, none, none, none, none, none⟩).isReply = false
    ∧ (runTestExtractRules parse0 "T"
        ⟨some "k", some "u", some "goodrules", none, none, some 40000, none,
         none, none, none, none, none, none, none, none⟩
        (fun _ => .resp 200 "fullbody" ⟨none, none, none⟩)).2 = 1
    ∧ jfield (runTestExtractRules parse0 "T"
        ⟨some "k", some "u", some "goodrules", none, none, some 40000, none,
         none, none, none, none, none, none, none, none⟩
        (fun _ => .resp 200 "fullbody" ⟨none, none, none⟩)).1.text "success"
        = some (.bool true) := by
  decide

/-- C5 (amended): the `wait` range check exists only in the stdio variant
(src/unnamed/part_001): there, an out-of-range `wait` yields
`success=false` with the fixed `Invalid wait value` message and no
upstream request, though without any `VALIDATION` kind marker; the
deployed HTTP variant (src/server-http.js) performs no `wait` range check
at all and proceeds to the upstream call. -/
theorem c5_wait_range_check (parse : String → Except String Json)
    (apiKey : String) (a : Args) (j : Json) (w : Int)
    (hu : truthyS a.url = true) (hr : truthyS a.extract_rules = true)
    (hok : parse (a.extract_rules.getD "") = .ok j)
    (hjs : truthyS a.js_scenario = false)
    (hw : a.wait = some w) (hrange : w < 0 ∨ w > 35000) :
    stdioTestExtractRulesValidate parse apiKey a =
      .reply ⟨jobj [("success", .bool false),
                    ("error", .str "Invalid wait value"),
                    ("message", .str "Wait must be between 0 and 35000 milliseconds")],
              true⟩
    ∧ hasKind (stdioTestExtractRulesValidate parse apiKey a).result.text
        "VALIDATION" = false
    ∧ (∀ (a2 : Args) (j2 : Json), truthyS a2.api_key = true →
        truthyS a2.url = true → truthyS a2.extract_rules = true →
        truthyS a2.js_scenario = false →
        parse (a2.extract_rules.getD "") = .ok j2 →
        testExtractRulesValidate parse a2
          = .callUpstream (buildTestQuery a2) 120000) := by
  have hcond : (w < 0 || w > 35000) = true := by
    rcases hrange with h | h <;> simp [h]
  have hv : stdioTestExtractRulesValidate parse apiKey a =
      .reply ⟨jobj [("success", .bool false),
                    ("error", .str "Invalid wait value"),
                    ("message", .str "Wait must be between 0 and 35000 milliseconds")],
              true⟩ := by
    simp [stdioTestExtractRulesValidate, hu, hr, hok, hjs, hw, Option.elim,
          hcond]
  refine ⟨hv, ?_, fun a2 j2 hk2 hu2 hr2 hjs2 hok2 => ?_⟩
  · simp [hv, Step.result, hasKind, fieldIsStr, jfield]
  · simp [testExtractRulesValidate, hk2, hu2, hr2, hjs2, hok2]

/-- Witness for C5 (amended): the stdio variant rejects `wait = 40000`
without an upstream call, while the HTTP variant issues the upstream call
for `wait = -1`. -/
theorem c5_witness :
    stdioTestExtractRulesValidate parse0 "envkey"
      ⟨none, some "u", some "goodrules", none, none, some 40000, none, none,
       none, none, none, none, none, none, none⟩ =
      .reply ⟨jobj [("success", .bool false),
                    ("error", .str "Invalid wait value"),
                    ("message", .str "Wait must be between 0 and 35000 milliseconds")],
              true⟩
    ∧ testExtractRulesValidate parse0
        ⟨some "k", some "u", some "goodrules", none, none, some (-1), none,
         none, none, none, none, none, none, none, none⟩
        = .callUpstream (buildTestQuery
            ⟨some "k", some "u", some "goodrules", none, none, some (-1),
             none, none, none, none, none, none, none, none, none⟩) 120000 :=
  ⟨(c5_wait_range_check parse0 "envkey"
      ⟨none, some "u", some "goodrules", none, none, some 40000, none, none,
       none, none, none, none, none, none, none⟩
      (jobj [("a", .str "h1")]) 40000 (by decide) (by decide) rfl (by decide)
      rfl (Or.inr (by decide))).1,
   (c5_wait_range_check parse0 "envkey"
      ⟨none, some "u", some "goodrules", none, none, some 40000, none, none,
       none, none, none, none, none, none, none⟩
      (jobj [("a", .str "h1")]) 40000 (by decide) (by decide) rfl (by decide)
      rfl (Or.inr (by decide))).2.2
     ⟨some "k", some "u", some "goodrules", none, none, some (-1), none,
      none, none, none, none, none, none, none, none⟩
     (jobj [("a", .str "h1")]) (by decide) (by decide) (by decide) (by decide)
     rfl⟩

/-- A `test_extract_rules` invocation performs at most one upstream
attempt, whatever the network does. -/
theorem fetchCount_le_one (parse : String → Except String Json)
    (now : String) (a : Args) (net : List (String × String) → FetchOutcome) :
    (runTestExtractRules parse now a net).2 ≤ 1 := by
  cases h : testExtractRulesValidate parse a <;>
    simp [runTestExtractRules, h]

/-- C6 is false as stated: in the legacy stdio variant
(src/unnamed/part_000, one of the claim's cited sources) the single
upstream call carries no timeout budget at all (`fetch(apiUrl)` with no
`AbortSignal`), and a thrown fetch error whose name is `TimeoutError`
produces a payload with no error category anywhere — not `TIMEOUT`. -/
theorem c6_counterexample :
    legacyTestExtractRulesValidate parse0 "envkey" (baseArgs "k" "u" "goodrules")
      = .callUpstream (callScrapingBeeApiQuery "envkey"
          (baseArgs "k" "u" "goodrules"))
    ∧ jfield (legacyTestExtractRulesRespond parse0 (baseArgs "k" "u" "goodrules")
        (.thrown "TimeoutError" "The operation was aborted due to timeout")).text
        "errorCategory" = none
    ∧ hasKind (legacyTestExtractRulesRespond parse0 (baseArgs "k" "u" "goodrules")
        (.thrown "TimeoutError" "The operation was aborted due to timeout")).text
        "TIMEOUT" = false := by
  decide

/-- C6 (amended): in the deployed HTTP server (src/server-http.js) every
tool invocation — `test_extract_rules`, `get_page_html`,
`get_screenshot` — performs at most one upstream attempt, exactly one
whenever validation lets the call through, the call carries the
120000 ms (120-second) timeout budget, and a rejected fetch classifies
as `TIMEOUT` exactly when the thrown error's name is `TimeoutError` and
as `NETWORK` for every other name, two distinct categories.  The legacy
stdio variant (src/unnamed/part_000) instead issues its single attempt
with no timeout bound and no such classification: its fetch failures
surface with no error category. -/
theorem c6_single_timed_attempt (parse : String → Except String Json) :
    (∀ (now : String) (a : Args) (net : List (String × String) → FetchOutcome),
      (runTestExtractRules parse now a net).2 ≤ 1)
    ∧ (∀ (now : String) (a : HArgs)
         (net : List (String × String) → FetchOutcome),
        (runGetPageHtml parse now a net).2 ≤ 1)
    ∧ (∀ (now : String) (a : SArgs)
         (net : List (String × String) → ShotOutcome),
        (runGetScreenshot parse now a net).2 ≤ 1)
    ∧ (∀ (a : Args) (q : List (String × String)) (t : Nat),
        testExtractRulesValidate parse a = .callUpstream q t → t = 120000)
    ∧ (∀ (now : String) (a : HArgs) (q : List (String × String)) (t : Nat),
        getPageHtmlValidate now a = .callUpstream q t → t = 120000)
    ∧ (∀ (now : String) (a : SArgs) (q : List (String × String)) (t : Nat),
        getScreenshotValidate now a = .callUpstream q t → t = 120000)
    ∧ (∀ (now : String) (a : Args) (q : List (String × String)) (t : Nat)
         (net : List (String × String) → FetchOutcome),
        testExtractRulesValidate parse a = .callUpstream q t →
        (runTestExtractRules parse now a net).2 = 1)
    ∧ (∀ (now : String) (a : HArgs) (q : List (String × String)) (t : Nat)
         (net : List (String × String) → FetchOutcome),
        getPageHtmlValidate now a = .callUpstream q t →
        (runGetPageHtml parse now a net).2 = 1)
    ∧ (∀ (now : String) (a : SArgs) (q : List (String × String)) (t : Nat)
         (net : List (String × String) → ShotOutcome),
        getScreenshotValidate now a = .callUpstream q t →
        (runGetScreenshot parse now a net).2 = 1)
    ∧ (∀ (now : String) (a : Args) (name msg : String),
        jfield (testExtractRulesRespond parse now a (.thrown name msg)).text
          "errorCategory"
          = some (.str (if name = "TimeoutError" then "TIMEOUT" else "NETWORK")))
    ∧ (∀ (now : String) (a : HArgs) (name msg : String),
        jfield (getPageHtmlRespond parse now a (.thrown name msg)).text
          "errorCategory"
          = some (.str (if name = "TimeoutError" then "TIMEOUT" else "NETWORK")))
    ∧ (∀ (now : String) (a : SArgs) (name msg : String),
        jfield (getScreenshotRespond parse now a (.thrown name msg)).text
          "errorCategory"
          = some (.str (if name = "TimeoutError" then "TIMEOUT" else "NETWORK")))
    ∧ (("TIMEOUT" : String) ≠ "NETWORK")
    ∧ (∀ (apiKey : String) (a : Args)
         (net : List (String × String) → FetchOutcome),
        (runLegacyTestExtractRules parse apiKey a net).2 ≤ 1)
    ∧ (∀ (a : Args) (name msg : String),
        jfield (legacyTestExtractRulesRespond parse a (.thrown name msg)).text
          "errorCategory" = none) := by
  refine ⟨fun now a net => fetchCount_le_one parse now a net,
          fun now a net => ?_, fun now a net => ?_,
          fun a q t h => ?_, fun now a q t h => ?_, fun now a q t h => ?_,
          fun now a q t net h => ?_, fun now a q t net h => ?_,
          fun now a q t net h => ?_,
          fun now a name msg => ?_, fun now a name msg => ?_,
          fun now a name msg => ?_, by decide,
          fun apiKey a net => ?_, fun a name msg => ?_⟩
  · cases h : getPageHtmlValidate now a <;> simp [runGetPageHtml, h]
  · cases h : getScreenshotValidate now a <;> simp [runGetScreenshot, h]
  · unfold testExtractRulesValidate at h
    repeat' split at h
    all_goals simp_all
  · unfold getPageHtmlValidate at h
    repeat' split at h
    all_goals simp_all
  · unfold getScreenshotValidate at h
    repeat' split at h
    all_goals simp_all
  · simp [runTestExtractRules, h]
  · simp [runGetPageHtml, h]
  · simp [runGetScreenshot, h]
  · by_cases hn : name = "TimeoutError" <;>
      simp [testExtractRulesRespond, hn, jfield]
  · by_cases hn : name = "TimeoutError" <;>
      simp [getPageHtmlRespond, hn, jfield]
  · by_cases hn : name = "TimeoutError" <;>
      simp [getScreenshotRespond, hn, jfield]
  · cases h : legacyTestExtractRulesValidate parse apiKey a <;>
      simp [runLegacyTestExtractRules, h]
  · simp [legacyTestExtractRulesRespond, jfield]

/-- Witness for C6 (amended): each of the three deployed tools performs
exactly one attempt on a validated request; a thrown `TimeoutError`
classifies as `TIMEOUT` and a thrown `TypeError` (connection refused) as
`NETWORK`; the legacy variant's thrown `TimeoutError` carries no
category. -/
theorem c6_witness :
    (runTestExtractRules parse0 "T" (baseArgs "k" "u" "goodrules")
      (fun _ => .thrown "TypeError" "fetch failed")).2 = 1
    ∧ (runGetPageHtml parse0 "T"
        ⟨some "k", some "u", none, none, none, none, none⟩
        (fun _ => .thrown "TypeError" "fetch failed")).2 = 1
    ∧ (runGetScreenshot parse0 "T"
        ⟨some "k", some "u", none, none, none, none, none, none⟩
        (fun _ => .thrown "TypeError" "fetch failed")).2 = 1
    ∧ jfield (testExtractRulesRespond parse0 "T" (baseArgs "k" "u" "goodrules")
        (.thrown "TimeoutError" "The operation timed out")).text "errorCategory"
        = some (.str "TIMEOUT")
    ∧ jfield (getPageHtmlRespond parse0 "T"
        ⟨some "k", some "u", none, none, none, none, none⟩
        (.thrown "TypeError" "fetch failed")).text "errorCategory"
        = some (.str "NETWORK")
    ∧ jfield (getScreenshotRespond parse0 "T"
        ⟨some "k", some "u", none, none, none, none, none, none⟩
        (.thrown "TimeoutError" "The operation timed out")).text "errorCategory"
        = some (.str "TIMEOUT")
    ∧ jfield (legacyTestExtractRulesRespond parse0 (baseArgs "k" "u" "goodrules")
        (.thrown "TimeoutError" "The operation timed out")).text "errorCategory"
        = none :=
  ⟨(c6_single_timed_attempt parse0).2.2.2.2.2.2.1 "T"
     (baseArgs "k" "u" "goodrules")
     (buildTestQuery (baseArgs "k" "u" "goodrules")) 120000
     (fun _ => .thrown "TypeError" "fetch failed") rfl,
   (c6_single_timed_attempt parse0).2.2.2.2.2.2.2.1 "T"
     ⟨some "k", some "u", none, none, none, none, none⟩
     (buildHtmlQuery ⟨some "k", some "u", none, none, none, none, none⟩)
     120000 (fun _ => .thrown "TypeError" "fetch failed") rfl,
   (c6_single_timed_attempt parse0).2.2.2.2.2.2.2.2.1 "T"
     ⟨some "k", some "u", none, none, none, none, none, none⟩
     (buildShotQuery ⟨some "k", some "u", none, none, none, none, none, none⟩)
     120000 (fun _ => .thrown "TypeError" "fetch failed") rfl,
   (by simpa using ((c6_single_timed_attempt parse0).2.2.2.2.2.2.2.2.2.1 "T"
     (baseArgs "k" "u" "goodrules") "TimeoutError" "The operation timed out")),
   (by simpa using ((c6_single_timed_attempt parse0).2.2.2.2.2.2.2.2.2.2.1 "T"
     ⟨some "k", some "u", none, none, none, none, none⟩
     "TypeError" "fetch failed")),
   (by simpa using ((c6_single_timed_attempt parse0).2.2.2.2.2.2.2.2.2.2.2.1 "T"
     ⟨some "k", some "u", none, none, none, none, none, none⟩
     "TimeoutError" "The operation timed out")),
   (c6_single_timed_attempt parse0).2.2.2.2.2.2.2.2.2.2.2.2.2.2
     (baseArgs "k" "u" "goodrules") "TimeoutError" "The operation timed out"⟩

/-- C7: the 403 diagnostic's `possibleCauses` and `suggestions` reference
the proxy and geolocation options (`premium_proxy`, `stealth_proxy`,
`country_code`, geographic restrictions); for a 500 whose target URL
contains `"google."` the first suggestion instructs setting
`custom_google=true`; the classification is advisory only — no retry is
triggered (at most one upstream attempt regardless of status). -/
theorem c7_error_classifier_diagnostics
    (parse : String → Except String Json) (now body url : String) :
    (jfield (parseScrapingBeeError parse now 403 body url) "possibleCauses"
      = some (jarr [.str "Access forbidden to target URL",
                    .str "Target site blocking requests",
                    .str "Geographic restrictions"])
     ∧ jfield (parseScrapingBeeError parse now 403 body url) "suggestions"
      = some (jarr [.str "Try premium_proxy=true for better success rate",
                    .str "Use stealth_proxy=true for heavily protected sites",
                    .str "Try different country_code"])
     ∧ (sbSuggestions 403 url).any (fun s => includesStr s "premium_proxy") = true
     ∧ (sbSuggestions 403 url).any (fun s => includesStr s "stealth_proxy") = true
     ∧ (sbSuggestions 403 url).any (fun s => includesStr s "country_code") = true
     ∧ (sbCauses 403).any (fun s => includesStr s "Geographic") = true)
    ∧ (includesStr url "google." = true →
       jfield (parseScrapingBeeError parse now 500 body url) "suggestions"
        = some (jarr ((["CRITICAL: Add custom_google=true for Google domains",
                        "For Google URLs, add custom_google=true",
                        "Retry request after a few seconds",
                        "Try with different proxy settings"]).map Json.str))
       ∧ includesStr "CRITICAL: Add custom_google=true for Google domains"
           "custom_google=true" = true)
    ∧ (∀ (now2 : String) (a : Args)
         (net : List (String × String) → FetchOutcome),
        (runTestExtractRules parse now2 a net).2 ≤ 1) := by
  have h403 : sbSuggestions 403 url
      = ["Try premium_proxy=true for better success rate",
         "Use stealth_proxy=true for heavily protected sites",
         "Try different country_code"] := by simp [sbSuggestions]
  have hc403 : sbCauses 403
      = ["Access forbidden to target URL", "Target site blocking requests",
         "Geographic restrictions"] := by simp [sbCauses]
  refine ⟨⟨?_, ?_, ?_, ?_, ?_, ?_⟩, fun hg => ⟨?_, by decide⟩,
          fun now2 a net => fetchCount_le_one parse now2 a net⟩
  · simp [parseScrapingBeeError, parseScrapingBeeErrorFields, hc403,
          jfield, lookupKV]
  · simp [parseScrapingBeeError, parseScrapingBeeErrorFields, h403,
          jfield, lookupKV]
  · rw [h403]; decide
  · rw [h403]; decide
  · rw [h403]; decide
  · rw [hc403]; decide
  · have h500 : sbSuggestions 500 url
        = ["CRITICAL: Add custom_google=true for Google domains",
           "For Google URLs, add custom_google=true",
           "Retry request after a few seconds",
           "Try with different proxy settings"] := by
      simp [sbSuggestions, hg]
    simp [parseScrapingBeeError, parseScrapingBeeErrorFields, h500,
          jfield, lookupKV]

/-- Witness for C7 at a concrete google URL and 403/500 bodies. -/
theorem c7_witness :
    jfield (parseScrapingBeeError parse0 "T" 403 "denied" "https://x.test")
        "suggestions"
      = some (jarr [.str "Try premium_proxy=true for better success rate",
                    .str "Use stealth_proxy=true for heavily protected sites",
                    .str "Try different country_code"])
    ∧ jfield (parseScrapingBeeError parse0 "T" 500 "err"
        "https://www.google.com/search") "suggestions"
      = some (jarr ((["CRITICAL: Add custom_google=true for Google domains",
                      "For Google URLs, add custom_google=true",
                      "Retry request after a few seconds",
                      "Try with different proxy settings"]).map Json.str)) :=
  ⟨(c7_error_classifier_diagnostics parse0 "T" "denied" "https://x.test").1.2.1,
   ((c7_error_classifier_diagnostics parse0 "T" "err"
      "https://www.google.com/search").2.1 (by decide)).1⟩

/-- C8 is false as stated: the very same validated request, replayed
against the identical upstream 403 response, produces different payload
bytes on the two runs — the diagnostic embeds the run's timestamp
(`new Date().toISOString()`), a run-dependent value. -/
theorem c8_counterexample :
    (testExtractRulesRespond parse0 "2024-01-01T00:00:00.000Z"
      (baseArgs "k" "u" "goodrules")
      (.resp 403 "denied" ⟨none, none, none⟩)).serText
    ≠ (testExtractRulesRespond parse0 "2024-01-01T00:00:01.000Z"
      (baseArgs "k" "u" "goodrules")
      (.resp 403 "denied" ⟨none, none, none⟩)).serText := by
  have h1 : (toString (403 : Int)) = "403" := by decide
  have h2 : (toString (403 : Nat)) = "403" := by decide
  have h3 : jsSubstringTo "denied" 1000 = "denied" := by decide
  simp [ToolResult.serText, ser, serA, serO, testExtractRulesRespond, parse0,
        parseScrapingBeeErrorFields, sbApiFields, sbCauses, sbSuggestions,
        getHttpStatusText, mkAppliedParams, optJ, optHeaderJ, jobj, jarr,
        baseArgs, helpUrlStr, troubleshootingUrlStr, truthyS, h1, h2, h3]

/-- C8 (amended): for a 2xx upstream response the tool result is a pure
function of the request and the response — the clock does not enter it —
so two runs with the identical response produce the identical result and
byte-identical serialized payloads; error paths (non-2xx, network
failure) instead embed the current timestamp and differ across runs. -/
theorem c8_success_clock_independent (parse : String → Except String Json)
    (a : Args) (status : Nat) (body : String) (hdrs : Headers)
    (now1 now2 : String) (h2 : 200 ≤ status) (h3 : status < 300) :
    testExtractRulesRespond parse now1 a (.resp status body hdrs)
      = testExtractRulesRespond parse now2 a (.resp status body hdrs)
    ∧ (testExtractRulesRespond parse now1 a (.resp status body hdrs)).serText
      = (testExtractRulesRespond parse now2 a (.resp status body hdrs)).serText := by
  have h : testExtractRulesRespond parse now1 a (.resp status body hdrs)
      = testExtractRulesRespond parse now2 a (.resp status body hdrs) := by
    simp [testExtractRulesRespond, h2, h3]
  exact ⟨h, congrArg ToolResult.serText h⟩

/-- Witness for C8 (amended): two runs at different clock readings over
the same 200 response coincide. -/
theorem c8_witness :
    testExtractRulesRespond parse0 "2024-01-01T00:00:00.000Z"
      (baseArgs "k" "u" "goodrules") (.resp 200 "fullbody" ⟨none, none, none⟩)
    = testExtractRulesRespond parse0 "2024-01-01T00:00:01.000Z"
      (baseArgs "k" "u" "goodrules") (.resp 200 "fullbody" ⟨none, none, none⟩) :=
  (c8_success_clock_independent parse0 (baseArgs "k" "u" "goodrules") 200
    "fullbody" ⟨none, none, none⟩ "2024-01-01T00:00:00.000Z"
    "2024-01-01T00:00:01.000Z" (by decide) (by decide)).1

theorem startsWithChars_length_le (p : List Char) :
    ∀ s : List Char, startsWithChars p s = true → p.length ≤ s.length := by
  induction p with
  | nil => intro s _; simp
  | cons c t ih =>
    intro s h
    cases s with
    | nil => simp [startsWithChars] at h
    | cons c2 t2 =>
      simp only [startsWithChars, Bool.and_eq_true] at h
      simpa using ih t2 h.2

theorem containsChars_length_le (p : List Char) :
    ∀ s : List Char, containsChars p s = true → p.length ≤ s.length := by
  intro s
  induction s with
  | nil =>
    intro h
    exact startsWithChars_length_le p [] h
  | cons c t ih =>
    intro h
    simp only [containsChars, Bool.or_eq_true] at h
    rcases h with h | h
    · exact startsWithChars_length_le p (c :: t) h
    · calc p.length ≤ t.length := ih h
        _ ≤ (c :: t).length := by simp

/-- The base64 encoding of `n` bytes has `4 * ((n + 2) / 3)` characters. -/
theorem base64Encode_length (bs : List Nat) :
    (base64Encode bs).length = 4 * ((bs.length + 2) / 3) := by
  induction bs using base64Encode.induct with
  | case1 => rfl
  | case2 a => simp [base64Encode, String.length]
  | case3 a b => simp [base64Encode, String.length]
  | case4 a b c rest ih =>
    simp only [base64Encode]
    have hlen : (String.mk [b64Char (a / 4 % 64),
        b64Char ((a % 4 * 16 + b / 16) % 64),
        b64Char ((b % 16 * 4 + c / 64) % 64), b64Char (c % 64)]
        ++ base64Encode rest).length
        = 4 + (base64Encode rest).length := by
      simp [String.length_append]
    rw [hlen, ih]
    simp only [List.length_cons]
    omega

/-- C9 is false as stated: for a small screenshot the *full* base64
encoding is returned inline (the "prefix" is the whole encoding). -/
theorem c9_counterexample :
    base64Encode [0, 0, 0] = "AAAA"
    ∧ jfield (getScreenshotOk "u" [0, 0, 0]).text "imageBase64"
      = some (.str "AAAA... [TRUNCATED]")
    ∧ includesStr "AAAA... [TRUNCATED]" "AAAA" = true := by
  decide

/-- C9 (amended): the 2xx screenshot result carries exactly the first
1000 characters of the base64 encoding followed by the fixed truncation
marker, plus `fullBase64Length` equal to the length of the full
encoding; an encoding longer than the 1015-character result text never
appears in it in full (only short encodings, at most the 1000-character
budget, are returned whole). -/
theorem c9_screenshot_truncation (url : String) (bytes : List Nat) :
    jfield (getScreenshotOk url bytes).text "imageBase64"
      = some (.str (jsSubstringTo (base64Encode bytes) 1000
          ++ "... [TRUNCATED]"))
    ∧ jfield (getScreenshotOk url bytes).text "fullBase64Length"
      = some (.num ((base64Encode bytes).length : Int))
    ∧ ((base64Encode bytes).length > 1015 →
        includesStr (jsSubstringTo (base64Encode bytes) 1000
          ++ "... [TRUNCATED]") (base64Encode bytes) = false) := by
  refine ⟨by simp [getScreenshotOk, jfield, lookupKV],
          by simp [getScreenshotOk, jfield, lookupKV], fun hlen => ?_⟩
  by_contra hcontra
  have hin : includesStr (jsSubstringTo (base64Encode bytes) 1000
      ++ "... [TRUNCATED]") (base64Encode bytes) = true := by
    revert hcontra
    cases includesStr (jsSubstringTo (base64Encode bytes) 1000
      ++ "... [TRUNCATED]") (base64Encode bytes) <;> simp
  have hle := containsChars_length_le (base64Encode bytes).toList
    (jsSubstringTo (base64Encode bytes) 1000 ++ "... [TRUNCATED]").toList hin
  have htext : (jsSubstringTo (base64Encode bytes) 1000
      ++ "... [TRUNCATED]").toList.length
      = min 1000 (base64Encode bytes).toList.length + 15 := by
    simp [String.toList, String.data_append, jsSubstringTo]
  have hblen : (base64Encode bytes).toList.length
      = (base64Encode bytes).length := rfl
  rw [htext, hblen] at hle
  omega

/-- Witness for C9 at a 765-byte body, whose 1020-character encoding
exceeds the truncation budget. -/
theorem c9_witness :
    jfield (getScreenshotOk "u" (List.replicate 765 0)).text "fullBase64Length"
      = some (.num ((base64Encode (List.replicate 765 0)).length : Int))
    ∧ includesStr (jsSubstringTo (base64Encode (List.replicate 765 0)) 1000
        ++ "... [TRUNCATED]") (base64Encode (List.replicate 765 0)) = false :=
  ⟨(c9_screenshot_truncation "u" (List.replicate 765 0)).2.1,
   (c9_screenshot_truncation "u" (List.replicate 765 0)).2.2 (by
     rw [base64Encode_length]
     simp only [List.length_replicate]
     norm_num)⟩

/-- Witness for C10 at concrete inputs: the all-empty two-element array, a
200 response whose body parses as `[""]`, and a solid boolean. -/
theorem c10_witness :
    checkIfEmpty (jarr [.str "", jarr []]) = true
    ∧ hasKind (testExtractRulesRespond parse0 "T" (baseArgs "k" "u" "goodrules")
        (.resp 200 "arraybody" ⟨none, none, none⟩)).text "EXTRACTION_EMPTY" = true
    ∧ checkIfEmpty (.bool true) = false :=
  ⟨c10_empty_check_on_arrays.1 [.str "", jarr []] (by decide) (by decide),
   c10_empty_check_on_arrays.2.2.1 parse0 "T" (baseArgs "k" "u" "goodrules")
     200 "arraybody" ⟨none, none, none⟩ [.str ""] (by decide) (by decide) rfl
     (by decide) (by decide),
   c10_empty_check_on_arrays.2.2.2 (.bool true) (by decide)⟩

end SBee
